import Mathlib

/-!
Verification of the tasks-buddy backend (FastAPI + Firestore + Vertex AI).

Shallow embedding conventions:
* `datetime` values are modelled as `Int` UTC instants (seconds). The
  `replace(tzinfo=timezone.utc)` stampings performed throughout the source on
  timezone-naive datetimes keep the wall-clock reading and only mark the value
  as UTC, so on this representation they are the identity and are noted where
  they occur.
* Firestore is modelled as `Store`: an availability flag (the source sets the
  global `db` client to `None` when initialisation fails, and
  `get_tasks_collection` then raises `ConnectionError`), plus an association
  list of document id to raw document.  Raw documents (`RawDoc`) may lack any
  field, since Firestore documents are schemaless dictionaries.
* Python exceptions are modelled by the `PyExc` inductive; the endpoints'
  `try/except` ladders are modelled by explicit `match` on a thrown `PyExc`.
  `fastapi.HTTPException` subclasses `Exception` (and is neither
  `ConnectionError` nor `ValueError`), and pydantic v2 `ValidationError`
  subclasses `ValueError`; both facts are reflected in the handlers below.
* The Vertex AI / Gemini call, `json.loads` and `datetime.fromisoformat` are
  external capabilities; they enter as oracle parameters (`GenResult`,
  `loads`, `fromiso`).
* Python string methods used by the source (`lower`, `strip`, `startswith`,
  `endswith`, slicing) are embedded as executable character-list operations.
-/

/-! ### Python string primitives (str.lower, `in`, str.strip, slicing) -/

/-- `s.lower()` (ASCII case folding, as exercised by the configured keywords). -/
def strLower (s : String) : String := String.mk (s.toList.map Char.toLower)

/-- Python `needle in hay` for strings: contiguous substring test. -/
def containsSub (needle hay : List Char) : Bool :=
  match hay with
  | [] => needle.isEmpty
  | _ :: t => needle.isPrefixOf hay || containsSub needle t

/-- `s.strip()`: remove leading and trailing whitespace. -/
def strTrim (s : String) : String :=
  String.mk (((s.toList.dropWhile Char.isWhitespace).reverse.dropWhile
    Char.isWhitespace).reverse)

/-- `s.startswith(p)`. -/
def strStartsWith (s p : String) : Bool := p.toList.isPrefixOf s.toList

/-- `s.endswith(p)`. -/
def strEndsWith (s p : String) : Bool := p.toList.isSuffixOf s.toList

/-- `s[n:]` (drop the first `n` characters). -/
def strDrop (s : String) (n : Nat) : String := String.mk (s.toList.drop n)

/-- `s[:-n]` (drop the last `n` characters). -/
def strDropRight (s : String) (n : Nat) : String :=
  String.mk (s.toList.take (s.toList.length - n))

/-! ### core/config.py -/

/-- `Settings.high_priority_keywords` default:
`"urgent,asap,important,deadline".split(",")`. -/
def high_priority_keywords : List String := ["urgent", "asap", "important", "deadline"]

/-! ### models/task_models.py -/

/-- `TaskCreate`: the POST /tasks request body.  The `deadline` validator
stamps naive datetimes as UTC, the identity on this representation. -/
structure TaskCreate where
  rawInput : String
  deadline : Option Int
deriving DecidableEq

/-- `ProcessedTaskData`: structured fields returned by the AI service. -/
structure ProcessedTaskData where
  processed_description : Option String := none
  deadline : Option Int := none
  tags : Option (List String) := some []
  priority_suggestion : Option String := none
deriving DecidableEq

/-- `TaskRead`: the task entity as returned by the API.  `deadline`,
`createdAt`, `updatedAt` are mandatory (pydantic), `priority`,
`processedDescription`, `tags` are Optional. -/
structure TaskRead where
  id : String
  userId : String
  originalInput : String
  processedDescription : Option String
  priority : Option String
  tags : Option (List String)
  deadline : Int
  createdAt : Int
  updatedAt : Int
  completed : Bool
deriving DecidableEq

/-! ### Firestore document model -/

/-- A Firestore task document: a schemaless dictionary, so every field may be
absent (modelled `none`). -/
structure RawDoc where
  userId : Option String := none
  originalInput : Option String := none
  processedDescription : Option String := none
  priority : Option String := none
  tags : Option (List String) := none
  deadline : Option Int := none
  createdAt : Option Int := none
  updatedAt : Option Int := none
  completed : Option Bool := none
deriving DecidableEq

/-- `TaskRead(**task_data)` (pydantic validation) for a document read back from
Firestore, after `task_data['id'] = doc.id`.  Mandatory fields missing make the
constructor raise `ValidationError`; `tags` defaults to `[]` when absent. -/
def parseTaskRead (id : String) (d : RawDoc) : Option TaskRead :=
  match d.userId, d.originalInput, d.deadline, d.createdAt, d.updatedAt, d.completed with
  | some u, some oi, some dl, some ca, some ua, some co =>
      some { id := id, userId := u, originalInput := oi,
             processedDescription := d.processedDescription,
             priority := d.priority, tags := some (d.tags.getD []),
             deadline := dl, createdAt := ca, updatedAt := ua, completed := co }
  | _, _, _, _, _, _ => none

/-- The Firestore state: `available = false` models the module-level client
having failed to initialise (`db = None`). -/
structure Store where
  available : Bool := true
  docs : List (String × RawDoc) := []
  nextId : Nat := 0
deriving DecidableEq

/-- `collection.document(id).get()` lookup (ids are unique in Firestore). -/
def Store.find? (st : Store) (tid : String) : Option RawDoc :=
  (st.docs.find? (fun p => p.1 == tid)).map (fun p => p.2)

/-- `collection.add(doc)`: Firestore assigns a fresh document id. -/
def Store.add (st : Store) (d : RawDoc) : String × Store :=
  ("task" ++ toString st.nextId,
   { st with docs := st.docs ++ [("task" ++ toString st.nextId, d)],
             nextId := st.nextId + 1 })

/-- `doc_ref.update(\x7b"completed": c, "updatedAt": now\x7d)`: a partial
field update touching exactly the two named fields of the one document. -/
def Store.updateCompletion (st : Store) (tid : String) (c : Bool) (now : Int) : Store :=
  { st with docs := st.docs.map (fun p =>
      if p.1 == tid then (p.1, { p.2 with completed := some c, updatedAt := some now })
      else p) }

/-- `.where(FieldFilter("userId", "==", user_id))`: equality filter; documents
without the field never match. -/
def Store.query (st : Store) (uid : String) : List (String × RawDoc) :=
  st.docs.filter (fun p => p.2.userId == some uid)

/-! ### Python exceptions -/

/-- The exception classes distinguished by the endpoints' `except` ladders.
`httpExc` is `fastapi.HTTPException` (a subclass of `Exception` only);
`valueError` also stands for pydantic `ValidationError`, its subclass. -/
inductive PyExc where
  | connectionError (msg : String)
  | valueError (msg : String)
  | httpExc (code : Nat) (detail : String)
  | other (msg : String)
deriving DecidableEq

/-! ### services/ai_service.py -/

/-- A JSON value, as produced by `json.loads`. -/
inductive Json where
  | null
  | bool (b : Bool)
  | num (n : Int)
  | str (s : String)
  | arr (elems : List Json)
  | obj (fields : List (String × Json))

/-- Python truthiness of a JSON value. -/
def jsonTruthy : Json → Bool
  | .null => false
  | .bool b => b
  | .num n => n != 0
  | .str s => !(s == "")
  | .arr xs => !xs.isEmpty
  | .obj kvs => !kvs.isEmpty

/-- `data.get(k)` on a parsed JSON object. -/
def jsonLookup (kvs : List (String × Json)) (k : String) : Option Json :=
  (kvs.find? (fun p => p.1 == k)).map (fun p => p.2)

/-- The outcome of `model.generate_content_async`: either an exception from
the API call, or a response carrying candidates, each with content parts. -/
inductive GenResult where
  | apiError (msg : String)
  | response (candidates : List (List String))

/-- The fallback `ProcessedTaskData(processed_description=raw_input,
priority_suggestion="Medium", deadline=None)` returned on extraction failure
(`tags` keeps its pydantic default `[]`). -/
def fallbackData (raw_input : String) : ProcessedTaskData :=
  { processed_description := some raw_input, deadline := none,
    tags := some [], priority_suggestion := some "Medium" }

/-- The fence stripping in `process_raw_task_input`: drop a leading
"```json", a trailing "```", then `strip()`. -/
def stripJsonFence (t : String) : String :=
  let t1 := if strStartsWith t "```json" then strDrop t 7 else t
  let t2 := if strEndsWith t1 "```" then strDropRight t1 3 else t1
  strTrim t2

/-- The deadline block of `process_raw_task_input`: `data.get("deadline")` is
parsed when truthy; a trailing `Z` is rewritten to `+00:00`; any exception
(`ValueError` from `fromisoformat`, `AttributeError` on a non-string) is
caught inside the block and yields `None`.  The naive-to-UTC stamping is the
identity on this representation. -/
def parseDeadlineField (dlv : Json) (fromiso : String → Option Int) : Option Int :=
  if jsonTruthy dlv then
    match dlv with
    | .str s => fromiso (if strEndsWith s "Z" then strDropRight s 1 ++ "+00:00" else s)
    | _ => none
  else none

/-- pydantic coercion of a JSON value into `Optional[str]`; `none` is a
`ValidationError`. -/
def asOptStr : Json → Option (Option String)
  | .null => some none
  | .str s => some (some s)
  | _ => none

/-- pydantic coercion of a JSON value into `str` (list elements). -/
def asStr : Json → Option String
  | .str s => some s
  | _ => none

/-- pydantic coercion of a JSON value into `Optional[List[str]]`. -/
def asOptStrList : Json → Option (Option (List String))
  | .null => some none
  | .arr xs => (xs.mapM asStr).map some
  | _ => none

/-- Construction of `ProcessedTaskData` from the parsed JSON object: deadline
via `parseDeadlineField`, the other fields via `data.get` with the source's
defaults.  A pydantic `ValidationError` on ill-typed fields is caught by the
final `except` and produces the full fallback. -/
def buildFromObj (raw_input : String) (kvs : List (String × Json))
    (fromiso : String → Option Int) : ProcessedTaskData :=
  let parsed_deadline := parseDeadlineField ((jsonLookup kvs "deadline").getD Json.null) fromiso
  match asOptStr ((jsonLookup kvs "processed_description").getD Json.null),
        asOptStrList ((jsonLookup kvs "tags").getD (Json.arr [])),
        asOptStr ((jsonLookup kvs "priority_suggestion").getD (Json.str "Medium")) with
  | some desc, some tg, some prio =>
      { processed_description := desc, deadline := parsed_deadline,
        tags := tg, priority_suggestion := prio }
  | _, _, _ => fallbackData raw_input

/-- `ai_service.process_raw_task_input`: total (never raises to the caller).
Every failure mode of the API call or of response parsing is caught and
degrades to `fallbackData`; only the deadline sub-block degrades to a `None`
deadline alone.  `loads` is `json.loads`, `fromiso` is
`datetime.fromisoformat` (returning `none` where Python raises). -/
def process_raw_task_input (raw_input : String) (r : GenResult)
    (loads : String → Except String Json) (fromiso : String → Option Int) :
    ProcessedTaskData :=
  match r with
  | .apiError _ => fallbackData raw_input
  | .response [] => fallbackData raw_input
  | .response ([] :: _) => fallbackData raw_input
  | .response ((t :: _) :: _) =>
    let response_text := stripJsonFence (strTrim t)
    if response_text = "" then fallbackData raw_input
    else if ¬ strStartsWith response_text "\x7b" then fallbackData raw_input
    else
      match loads response_text with
      | .error _ => fallbackData raw_input
      | .ok (.obj kvs) => buildFromObj raw_input kvs fromiso
      | .ok _ => fallbackData raw_input

/-! ### crud/task_crud.py -/

/-- `get_tasks_collection`: raises `ConnectionError` when the module-level
client failed to initialise. -/
def Crud.get_tasks_collection (st : Store) : Except PyExc Unit :=
  if st.available then .ok () else .error (.connectionError "Firestore client not initialized")

/-- `crud.get_task`: fetch a document snapshot (`none` models
`snapshot.exists == False`). -/
def Crud.get_task (st : Store) (task_id : String) : Except PyExc (Option RawDoc) :=
  match Crud.get_tasks_collection st with
  | .error e => .error e
  | .ok _ => .ok (st.find? task_id)

/-- Python `x or default` for an optional string (`None` and `""` are falsy). -/
def pyOrStr (v : Option String) (dflt : String) : String :=
  match v with
  | some s => if s = "" then dflt else s
  | none => dflt

/-- Python `x or []` for an optional list (`None` and `[]` are falsy). -/
def pyOrList (v : Option (List String)) : List String := v.getD []

/-- `crud.create_task`: resolve the deadline (user-provided first, then AI,
else `ValueError`), build `TaskInDB`, `model_dump` it (no field is `None`
here, so `exclude_none` drops nothing), `collection.add` it, and return
`TaskRead(id=document_id, **task_dict)`.  The naive-deadline UTC stamping is
the identity on this representation. -/
def Crud.create_task (user_id : String) (task_in : TaskCreate)
    (processed_data : ProcessedTaskData) (now : Int) (st : Store) :
    Except PyExc (Store × TaskRead) :=
  match Crud.get_tasks_collection st with
  | .error e => .error e
  | .ok _ =>
    match task_in.deadline, processed_data.deadline with
    | none, none =>
        .error (.valueError "Task creation failed: Deadline is required but was not provided or detected by AI.")
    | d1, d2 =>
      let final_deadline := match d1, d2 with
        | some d, _ => d
        | none, some d => d
        | none, none => 0
      let desc := pyOrStr processed_data.processed_description task_in.rawInput
      let prio := pyOrStr processed_data.priority_suggestion "Medium"
      let tgs := pyOrList processed_data.tags
      let doc : RawDoc :=
        { userId := some user_id, originalInput := some task_in.rawInput,
          processedDescription := some desc, priority := some prio,
          tags := some tgs, deadline := some final_deadline,
          createdAt := some now, updatedAt := some now, completed := some false }
      let idst := st.add doc
      .ok (idst.2,
        { id := idst.1, userId := user_id, originalInput := task_in.rawInput,
          processedDescription := some desc, priority := some prio,
          tags := some tgs, deadline := final_deadline,
          createdAt := now, updatedAt := now, completed := false })

/-! #### Ranking (the sort at the end of `get_tasks_for_user`) -/

/-- The sort key codomain: lexicographic triples
(priority weight, deadline-or-infinity, negated creation time). -/
abbrev RankKey := Lex (Nat × Lex (WithTop Int × Int))

/-- `priority_order.get(task.priority, 99)` with
`priority_order = \x7b'High': 1, 'Medium': 2, 'Low': 3\x7d`; a missing or
unrecognized priority gets 99. -/
def priorityWeight (p : Option String) : Nat :=
  match p with
  | some "High" => 1
  | some "Medium" => 2
  | some "Low" => 3
  | _ => 99

/-- `task.deadline.timestamp() if task.deadline else float('inf')`: the
deadline component, with a falsy (missing) deadline as positive infinity. -/
def deadlineKey (d : Option Int) : WithTop Int :=
  match d with
  | some t => (t : WithTop Int)
  | none => ⊤

/-- `task.createdAt.timestamp() if task.createdAt else 0`: the creation
timestamp, with a falsy (missing) value as epoch 0. -/
def createdKey (c : Option Int) : Int :=
  match c with
  | some t => t
  | none => 0

/-- `sort_key(task)`: the tuple
`(prio_value, deadline_timestamp, -created_timestamp)`.  On `TaskRead`,
`deadline` and `createdAt` are mandatory (and datetimes are always truthy in
Python), so they enter as `some`; the falsy branches of the source expression
live in `deadlineKey` / `createdKey`. -/
def sort_key (t : TaskRead) : RankKey :=
  toLex (priorityWeight t.priority,
         toLex (deadlineKey (some t.deadline), -(createdKey (some t.createdAt))))

/-- The comparison underlying `tasks.sort(key=sort_key)`. -/
def taskLe (a b : TaskRead) : Prop := sort_key a ≤ sort_key b

instance : DecidableRel taskLe :=
  fun a b => inferInstanceAs (Decidable (sort_key a ≤ sort_key b))

instance : IsTrans TaskRead taskLe := ⟨fun _ _ _ h1 h2 => le_trans h1 h2⟩

instance : IsTotal TaskRead taskLe := ⟨fun a b => le_total (sort_key a) (sort_key b)⟩

/-- `tasks.sort(key=sort_key)`: Python's sort is stable, so it is modelled by
a stable sort (insertion sort) under the key comparison. -/
def rank (tasks : List TaskRead) : List TaskRead := tasks.insertionSort taskLe

/-- The read loop of `get_tasks_for_user`: each document is parsed with
`TaskRead(**task_data)` inside `try`; on any exception the document is logged
and skipped, and the loop continues.  The timezone-awareness fixups before
parsing are the identity on this representation. -/
def Crud.collectTasks : List (String × RawDoc) → List TaskRead
  | [] => []
  | (did, d) :: rest =>
    match parseTaskRead did d with
    | some t => t :: Crud.collectTasks rest
    | none => Crud.collectTasks rest

/-- `crud.get_tasks_for_user`: query by owner, parse leniently, sort. -/
def Crud.get_tasks_for_user (user_id : String) (st : Store) :
    Except PyExc (List TaskRead) :=
  match Crud.get_tasks_collection st with
  | .error e => .error e
  | .ok _ => .ok (rank (Crud.collectTasks (st.query user_id)))

/-- `crud.update_task_completion`: `task_ref.update(...)` (raising Firestore
`NotFound`, a plain `Exception`, on a missing document), re-fetch, and parse;
a pydantic `ValidationError` on the re-read document is a `ValueError`
subclass.  The crud-level `except Exception: ... raise` re-raises unchanged. -/
def Crud.update_task_completion (task_id : String) (completed : Bool) (now : Int)
    (st : Store) : Store × Except PyExc TaskRead :=
  match Crud.get_tasks_collection st with
  | .error e => (st, .error e)
  | .ok _ =>
    match st.find? task_id with
    | none => (st, .error (.other "google NotFound raised by update on a missing document"))
    | some _ =>
      let st' := st.updateCompletion task_id completed now
      match st'.find? task_id with
      | some doc =>
        match parseTaskRead task_id doc with
        | some t => (st', .ok t)
        | none => (st', .error (.valueError "pydantic ValidationError"))
      | none => (st', .error (.valueError ("Task with ID " ++ task_id ++ " not found after update attempt.")))

/-! ### api/v1/endpoints/tasks.py -/

/-- The `try` body of `create_new_task`: the mandatory-deadline check raising
`HTTPException(400)`, the keyword-based priority override, then
`crud.create_task`.  The store mutation (`add`) is the last step, so every
thrown exception leaves the store unchanged. -/
def Api.create_inner (current_user_id : String) (task_in : TaskCreate)
    (processed_data : ProcessedTaskData) (now : Int) (st : Store) :
    Except PyExc (Store × TaskRead) :=
  if task_in.deadline = none ∧ processed_data.deadline = none then
    .error (.httpExc 400 "Task deadline is required. Please provide a deadline or ensure it can be extracted from the task description.")
  else
    let final_priority := pyOrStr processed_data.priority_suggestion "Medium"
    let raw_input_lower := strLower task_in.rawInput
    let final_priority :=
      if high_priority_keywords.any (fun k => containsSub k.toList raw_input_lower.toList)
      then "High" else final_priority
    let pd' := { processed_data with priority_suggestion := some final_priority }
    Crud.create_task current_user_id task_in pd' now st

/-- The `except` ladder of `create_new_task`: `ConnectionError` to 503,
`ValueError` to 400, and everything else — including the `HTTPException`
raised inside the `try` body, a subclass of `Exception` — to 500. -/
def Api.createStatus : PyExc → Nat
  | .connectionError _ => 503
  | .valueError _ => 400
  | _ => 500

/-- `POST /tasks` (`create_new_task`), given the authenticated user id and the
(total) AI extraction result. -/
def Api.create_new_task (current_user_id : String) (task_in : TaskCreate)
    (processed_data : ProcessedTaskData) (now : Int) (st : Store) :
    Store × Except Nat TaskRead :=
  match Api.create_inner current_user_id task_in processed_data now st with
  | .ok r => (r.1, .ok r.2)
  | .error e => (st, .error (Api.createStatus e))

/-- The `except` ladder of `read_user_tasks`: `ConnectionError` to 503,
everything else to 500. -/
def Api.listStatus : PyExc → Nat
  | .connectionError _ => 503
  | _ => 500

/-- `GET /tasks` (`read_user_tasks`). -/
def Api.read_user_tasks (current_user_id : String) (st : Store) :
    Except Nat (List TaskRead) :=
  match Crud.get_tasks_for_user current_user_id st with
  | .ok l => .ok l
  | .error e => .error (Api.listStatus e)

/-- The `try` body of `update_task_completion`: fetch the snapshot, raise
`HTTPException(404)` when it does not exist, `HTTPException(403)` when
`task_data.get("userId") != current_user_id` (in that order), then call
`crud.update_task_completion`. -/
def Api.complete_inner (current_user_id task_id : String) (completed : Bool)
    (now : Int) (st : Store) : Store × Except PyExc TaskRead :=
  match Crud.get_task st task_id with
  | .error e => (st, .error e)
  | .ok none => (st, .error (.httpExc 404 "Task not found."))
  | .ok (some doc) =>
    if doc.userId ≠ some current_user_id then
      (st, .error (.httpExc 403 "You do not have permission to modify this task."))
    else
      Crud.update_task_completion task_id completed now st

/-- The `except` ladder of `update_task_completion`: `ConnectionError` to 503,
`ValueError` to 404, and everything else — including the `HTTPException(404)`
and `HTTPException(403)` raised inside the `try` body — to 500. -/
def Api.completeStatus : PyExc → Nat
  | .connectionError _ => 503
  | .valueError _ => 404
  | _ => 500

/-- `PUT /tasks/(task_id)/complete` (`update_task_completion`).  The
`completed_data.get("completed") is None` check sits before the `try` block,
so its 400 survives. -/
def Api.update_task_completion (current_user_id task_id : String)
    (completed_data : Option Bool) (now : Int) (st : Store) :
    Store × Except Nat TaskRead :=
  match completed_data with
  | none => (st, .error 400)
  | some c =>
    match Api.complete_inner current_user_id task_id c now st with
    | (st', .ok t) => (st', .ok t)
    | (st', .error e) => (st', .error (Api.completeStatus e))

/-! ### Concrete instances used for witnesses and counterexamples -/

/-- A well-formed stored document owned by user "u". -/
def docW : RawDoc :=
  { userId := some "u", originalInput := some "write report",
    processedDescription := some "Write report", priority := some "High",
    tags := some ["work"], deadline := some 50, createdAt := some 10,
    updatedAt := some 10, completed := some false }

/-- An ill-formed stored document of user "u": no deadline, so
`TaskRead(**task_data)` raises `ValidationError`. -/
def docBad : RawDoc := { userId := some "u", originalInput := some "junk" }

/-- A store holding one parsable and one unparsable document of user "u". -/
def stW : Store := { available := true, docs := [("t1", docW), ("t2", docBad)], nextId := 0 }

/-- The `TaskRead` produced by a completed update of `docW` at time 99. -/
def tW : TaskRead :=
  { id := "t1", userId := "u", originalInput := "write report",
    processedDescription := some "Write report", priority := some "High",
    tags := some ["work"], deadline := 50, createdAt := 10,
    updatedAt := 99, completed := true }

/-- The `TaskRead` parsed from `docW` as stored. -/
def tW0 : TaskRead :=
  { id := "t1", userId := "u", originalInput := "write report",
    processedDescription := some "Write report", priority := some "High",
    tags := some ["work"], deadline := 50, createdAt := 10,
    updatedAt := 10, completed := false }

/-- A `json.loads` oracle: the model's reply parses to an object whose
deadline string is not ISO 8601. -/
def c8_loads : String → Except String Json := fun s =>
  if s = "\x7bstub\x7d" then
    .ok (.obj [("processed_description", .str "Prepare slides"),
               ("deadline", .str "not-a-date"),
               ("tags", .arr [.str "work"]),
               ("priority_suggestion", .str "Low")])
  else .error "Expecting value: line 1 column 1 (char 0)"

/-- A `datetime.fromisoformat` oracle that rejects every string (it raises
`ValueError` on non-ISO input such as "not-a-date"). -/
def c8_fromiso : String → Option Int := fun _ => none

/-! ### Helper lemmas -/

/-- The lenient read loop keeps exactly the parsable documents, in order. -/
theorem collectTasks_eq_filterMap (l : List (String × RawDoc)) :
    Crud.collectTasks l = l.filterMap (fun p => parseTaskRead p.1 p.2) := by
  induction l with
  | nil => rfl
  | cons h t ih =>
    cases hp : parseTaskRead h.1 h.2 <;>
      simp [Crud.collectTasks, List.filterMap_cons, hp, ih]

/-- List-level form of the frame lemma for `Store.updateCompletion`. -/
theorem find?_map_update (tid : String) (c : Bool) (now : Int)
    (l : List (String × RawDoc)) :
    (l.map (fun p =>
        if p.1 == tid then (p.1, { p.2 with completed := some c, updatedAt := some now })
        else p)).find? (fun p => p.1 == tid)
      = (l.find? (fun p => p.1 == tid)).map
          (fun p => (p.1, { p.2 with completed := some c, updatedAt := some now })) := by
  induction l with
  | nil => rfl
  | cons h t ih =>
    by_cases hh : h.1 = tid
    · simp [List.find?_cons, hh, -List.find?_map]
    · have hb : (h.1 == tid) = false := by simp [hh]
      simp only [List.map_cons, List.find?_cons, hb, beq_iff_eq, hh, decide_False,
        if_false, ite_false]
      simpa [hh] using ih

/-- A field update rewrites the looked-up document and nothing else of it. -/
theorem find?_updateCompletion (st : Store) (tid : String) (c : Bool) (now : Int) :
    (st.updateCompletion tid c now).find? tid
      = (st.find? tid).map (fun d => { d with completed := some c, updatedAt := some now }) := by
  simp only [Store.find?, Store.updateCompletion]
  rw [find?_map_update]
  cases st.docs.find? (fun p => p.1 == tid) <;> rfl

/-! ### Claims -/

/-- C6: for every multiset of tasks, `rank` orders them by the lexicographic
ascending key (priority weight, deadline, negated creation time), where the
weight is 1 for High, 2 for Medium, 3 for Low, 99 for any other value, a
missing deadline is treated as positive infinity, and a missing creation
timestamp is treated as epoch 0. -/
theorem c6_rank_orders_by_lex_key :
    (∀ l : List TaskRead, (rank l).Perm l ∧ List.Sorted taskLe (rank l))
    ∧ (∀ a b : TaskRead, taskLe a b ↔ sort_key a ≤ sort_key b)
    ∧ (∀ t : TaskRead, sort_key t
        = toLex (priorityWeight t.priority,
            toLex (deadlineKey (some t.deadline), -(createdKey (some t.createdAt)))))
    ∧ priorityWeight (some "High") = 1
    ∧ priorityWeight (some "Medium") = 2
    ∧ priorityWeight (some "Low") = 3
    ∧ (∀ p : Option String, p ≠ some "High" → p ≠ some "Medium" → p ≠ some "Low" →
        priorityWeight p = 99)
    ∧ deadlineKey none = ⊤
    ∧ (∀ d : Int, deadlineKey (some d) = (d : WithTop Int))
    ∧ createdKey none = 0
    ∧ (∀ c : Int, createdKey (some c) = c) := by
  refine ⟨fun l => ⟨List.perm_insertionSort taskLe l, List.sorted_insertionSort taskLe l⟩,
    fun a b => Iff.rfl, fun t => rfl, rfl, rfl, rfl, ?_, rfl, fun d => rfl, rfl, fun c => rfl⟩
  intro p h1 h2 h3
  unfold priorityWeight
  split <;> simp_all

/-- Witness for C6: the defensive weight at a corrupt priority value, and the
sort on a concrete list. -/
theorem c6_witness :
    priorityWeight (some "Critical") = 99 ∧ (rank []).Perm ([] : List TaskRead) :=
  ⟨c6_rank_orders_by_lex_key.2.2.2.2.2.2.1 (some "Critical") (by decide) (by decide) (by decide),
   (c6_rank_orders_by_lex_key.1 []).1⟩

/-- C7: the ranking operation is idempotent, `rank (rank l) = rank l`. -/
theorem c7_rank_idempotent (l : List TaskRead) : rank (rank l) = rank l :=
  List.Sorted.insertionSort_eq (List.sorted_insertionSort taskLe l)

/-- C1: a CreateTask request with no user deadline and a null extracted
deadline is rejected without persisting a task — but with status 500, not the
claimed 400: the `HTTPException(400)` is raised inside the `try` block and the
final `except Exception` replaces it with a 500.  The first conjunct shows the
intended 400 being constructed, the second the surfaced 500 and the unchanged
store. -/
theorem c1_missing_deadline_rejected_as_500 :
    Api.create_inner "u" { rawInput := "buy milk", deadline := none }
      (fallbackData "buy milk") 100 {}
      = .error (.httpExc 400 "Task deadline is required. Please provide a deadline or ensure it can be extracted from the task description.")
    ∧ Api.create_new_task "u" { rawInput := "buy milk", deadline := none }
        (fallbackData "buy milk") 100 {}
      = (({} : Store), .error 500) := ⟨rfl, rfl⟩

/-- C4: the existence check is evaluated before the ownership check, and the
handler constructs 404 for a missing id (regardless of caller) and 403 for a
wrong owner — but both `HTTPException`s are swallowed by the final
`except Exception` and surface as 500, not the claimed 404/403. -/
theorem c4_not_found_before_forbidden_surfaced_as_500 :
    Api.complete_inner "mallory" "nope" true 99 stW
      = (stW, .error (.httpExc 404 "Task not found."))
    ∧ Api.update_task_completion "mallory" "nope" (some true) 99 stW
      = (stW, .error 500)
    ∧ Api.complete_inner "u" "nope" true 99 stW
      = (stW, .error (.httpExc 404 "Task not found."))
    ∧ Api.complete_inner "mallory" "t1" true 99 stW
      = (stW, .error (.httpExc 403 "You do not have permission to modify this task."))
    ∧ Api.update_task_completion "mallory" "t1" (some true) 99 stW
      = (stW, .error 500) := ⟨rfl, rfl, rfl, rfl, rfl⟩

/-- C5: a CompleteTask by a non-owner on an existing task mutates nothing
(the returned store is the input store, so the stored task is unchanged), and
the handler constructs the intended 403 — but the response surfaces as 500,
not the claimed Forbidden, because the final `except Exception` swallows the
`HTTPException(403)`. -/
theorem c5_non_owner_no_mutation_but_500 :
    Api.update_task_completion "mallory" "t1" (some true) 99 stW
      = (stW, .error 500)
    ∧ Api.complete_inner "mallory" "t1" true 99 stW
      = (stW, .error (.httpExc 403 "You do not have permission to modify this task."))
    ∧ stW.find? "t1" = some docW := ⟨rfl, rfl, rfl⟩

/-- C2: when both the user-supplied explicit deadline and the extracted
deadline are present, the creation succeeds and the deadline of the created
task — returned and persisted (the one appended document) — is the
user-supplied one, regardless of the extractor's value. -/
theorem c2_user_deadline_precedence (current_user_id : String) (task_in : TaskCreate)
    (pd : ProcessedTaskData) (now d e : Int) (st : Store)
    (hav : st.available = true)
    (hd : task_in.deadline = some d) (he : pd.deadline = some e) :
    (Api.create_new_task current_user_id task_in pd now st).2.map
        (fun t => t.deadline) = .ok d
    ∧ ((Api.create_new_task current_user_id task_in pd now st).1.docs.getLast?).map
        (fun p => p.2.deadline) = some (some d)
    ∧ (Api.create_new_task current_user_id task_in pd now st).1.docs.length
        = st.docs.length + 1 := by
  refine ⟨?_, ?_, ?_⟩ <;>
    simp [Api.create_new_task, Api.create_inner, Crud.create_task,
      Crud.get_tasks_collection, Store.add, List.getLast?_concat, Except.map,
      hav, hd, he]

/-- Witness for C2: both deadlines present, the stored deadline is the
user-supplied 200, not the extractor's 300. -/
theorem c2_witness :
    (Api.create_new_task "u" { rawInput := "plan trip", deadline := some 200 }
      { processed_description := some "Plan trip", deadline := some 300,
        tags := some [], priority_suggestion := some "Low" } 100 {}).2.map
        (fun t => t.deadline) = .ok 200
    ∧ ((Api.create_new_task "u" { rawInput := "plan trip", deadline := some 200 }
        { processed_description := some "Plan trip", deadline := some 300,
          tags := some [], priority_suggestion := some "Low" } 100 {}).1.docs.getLast?).map
        (fun p => p.2.deadline) = some (some 200)
    ∧ (Api.create_new_task "u" { rawInput := "plan trip", deadline := some 200 }
        { processed_description := some "Plan trip", deadline := some 300,
          tags := some [], priority_suggestion := some "Low" } 100 {}).1.docs.length
        = ({} : Store).docs.length + 1 :=
  c2_user_deadline_precedence "u" _ _ 100 200 300 {} rfl rfl rfl

/-- C3: when the raw text contains a configured high-priority keyword
(case-insensitively), the creation succeeds and the created task's priority
is High, regardless of the extractor's suggestion. -/
theorem c3_keyword_forces_high (current_user_id : String) (task_in : TaskCreate)
    (pd : ProcessedTaskData) (now : Int) (st : Store)
    (hav : st.available = true)
    (hk : high_priority_keywords.any
        (fun k => containsSub k.toList (strLower task_in.rawInput).toList) = true)
    (hd : ¬ (task_in.deadline = none ∧ pd.deadline = none)) :
    (Api.create_new_task current_user_id task_in pd now st).2.map
        (fun t => t.priority) = .ok (some "High") := by
  simp only [List.any_eq_true, String.toList] at hk
  cases hdl : task_in.deadline with
  | some d =>
    simp [Api.create_new_task, Api.create_inner, Crud.create_task,
      Crud.get_tasks_collection, Store.add, pyOrStr, Except.map, hav, hk, hdl]
  | none =>
    cases hdl2 : pd.deadline with
    | none => exact absurd ⟨hdl, hdl2⟩ hd
    | some e =>
      simp [Api.create_new_task, Api.create_inner, Crud.create_task,
        Crud.get_tasks_collection, Store.add, pyOrStr, Except.map, hav, hk, hdl, hdl2]

/-- Witness for C3: "URGENT" matches the keyword "urgent" case-insensitively
and overrides the extractor's Low suggestion. -/
theorem c3_witness :
    (Api.create_new_task "u" { rawInput := "URGENT: prepare slides", deadline := some 500 }
      { processed_description := some "Prepare slides", deadline := none,
        tags := some [], priority_suggestion := some "Low" } 100 {}).2.map
        (fun t => t.priority) = .ok (some "High") :=
  c3_keyword_forces_high "u" _ _ 100 {} rfl (by decide) (by decide)

/-- C9: a successful CompleteTask writes only `completed` and `updatedAt` on
the stored document; every other field is unchanged (the stored document
after the update is the record update of the one before). -/
theorem c9_update_frame (current_user_id task_id : String) (c : Bool) (now : Int)
    (st st' : Store) (t : TaskRead)
    (h : Api.update_task_completion current_user_id task_id (some c) now st = (st', .ok t)) :
    ∃ doc, st.find? task_id = some doc
      ∧ st'.find? task_id = some { doc with completed := some c, updatedAt := some now } := by
  by_cases hav : st.available = true
  · cases hf : st.find? task_id with
    | none =>
      exfalso
      simp [Api.update_task_completion, Api.complete_inner, Crud.get_task,
        Crud.get_tasks_collection, hav, hf] at h
    | some doc =>
      by_cases hown : doc.userId = some current_user_id
      · have hfu := find?_updateCompletion st task_id c now
        rw [hf] at hfu
        simp only [Option.map_some'] at hfu
        have hcond : ¬ (doc.userId ≠ some current_user_id) := by simp [hown]
        cases hp : parseTaskRead task_id { doc with completed := some c, updatedAt := some now } with
        | none =>
          exfalso
          simp [Api.update_task_completion, Api.complete_inner, Crud.get_task,
            Crud.get_tasks_collection, Crud.update_task_completion, hav, hf, hcond,
            hfu, hp] at h
        | some t' =>
          simp [Api.update_task_completion, Api.complete_inner, Crud.get_task,
            Crud.get_tasks_collection, Crud.update_task_completion, hav,
            hf, hcond, hfu, hp, Prod.mk.injEq] at h
          obtain ⟨h1, h2⟩ := h
          exact ⟨doc, rfl, by rw [← h1]; exact hfu⟩
      · exfalso
        simp [Api.update_task_completion, Api.complete_inner, Crud.get_task,
          Crud.get_tasks_collection, hav, hf, hown] at h
  · exfalso
    simp [Api.update_task_completion, Api.complete_inner, Crud.get_task,
      Crud.get_tasks_collection, hav] at h

/-- Witness for C9: completing the stored task "t1" updates exactly
`completed` and `updatedAt` of its document. -/
theorem c9_witness :
    (stW.updateCompletion "t1" true 99).find? "t1"
      = some { docW with completed := some true, updatedAt := some 99 } := by
  obtain ⟨doc, h1, h2⟩ :=
    c9_update_frame "u" "t1" true 99 stW (stW.updateCompletion "t1" true 99) tW rfl
  have h1' : some docW = some doc := h1
  injection h1' with h1''
  subst h1''
  exact h2

/-- C10: listing a user's tasks silently skips any stored document that fails
to validate as a task record: the operation still succeeds and returns the
ranked sequence of the remaining parsable tasks. -/
theorem c10_unparsable_docs_skipped (user_id : String) (st : Store)
    (hav : st.available = true) :
    Api.read_user_tasks user_id st
      = .ok (rank ((st.query user_id).filterMap (fun p => parseTaskRead p.1 p.2))) := by
  simp [Api.read_user_tasks, Crud.get_tasks_for_user, Crud.get_tasks_collection,
    hav, collectTasks_eq_filterMap]

/-- Witness for C10: `stW` holds one parsable and one unparsable document of
user "u"; listing succeeds and returns exactly the parsable one. -/
theorem c10_witness :
    Api.read_user_tasks "u" stW
      = .ok (rank ((stW.query "u").filterMap (fun p => parseTaskRead p.1 p.2)))
    ∧ Api.read_user_tasks "u" stW = .ok [tW0] :=
  ⟨c10_unparsable_docs_skipped "u" stW rfl, rfl⟩

/-- C8 counterexample: an unparsable deadline string does not produce the
full fallback.  The model's reply parses as JSON but carries the deadline
"not-a-date", which `datetime.fromisoformat` rejects; the result keeps the
extracted description, tags and Low priority — its description is not the
raw text, so the claimed fallback shape is violated. -/
theorem c8_counterexample :
    process_raw_task_input "buy milk" (.response [["\x7bstub\x7d"]]) c8_loads c8_fromiso
      = { processed_description := some "Prepare slides", deadline := none,
          tags := some ["work"], priority_suggestion := some "Low" }
    ∧ process_raw_task_input "buy milk" (.response [["\x7bstub\x7d"]]) c8_loads c8_fromiso
        ≠ fallbackData "buy milk" := by
  constructor
  · rfl
  · decide

/-- C8 (amended): field extraction is total and degrades to the full fallback
(description = raw text, priority Medium, deadline absent, tags empty) on a
model API error, a response without candidates or parts, an empty or
non-JSON response, or malformed JSON; an unparsable deadline string, however,
only forces the deadline to be absent, while the other fields are still taken
from the parsed JSON object. -/
theorem c8_extraction_degrades :
    (∀ raw loads fromiso msg,
      process_raw_task_input raw (.apiError msg) loads fromiso = fallbackData raw)
    ∧ (∀ raw loads fromiso,
      process_raw_task_input raw (.response []) loads fromiso = fallbackData raw)
    ∧ (∀ raw loads fromiso rest,
      process_raw_task_input raw (.response ([] :: rest)) loads fromiso = fallbackData raw)
    ∧ (∀ raw loads fromiso t ts rest,
      stripJsonFence (strTrim t) = ""
        ∨ strStartsWith (stripJsonFence (strTrim t)) "\x7b" = false →
      process_raw_task_input raw (.response ((t :: ts) :: rest)) loads fromiso
        = fallbackData raw)
    ∧ (∀ raw loads fromiso t ts rest msg,
      loads (stripJsonFence (strTrim t)) = .error msg →
      process_raw_task_input raw (.response ((t :: ts) :: rest)) loads fromiso
        = fallbackData raw)
    ∧ (∀ raw loads fromiso t ts rest kvs,
      loads (stripJsonFence (strTrim t)) = .ok (.obj kvs) →
      stripJsonFence (strTrim t) ≠ "" →
      strStartsWith (stripJsonFence (strTrim t)) "\x7b" = true →
      process_raw_task_input raw (.response ((t :: ts) :: rest)) loads fromiso
        = buildFromObj raw kvs fromiso)
    ∧ (∀ raw fromiso kvs s,
      jsonLookup kvs "deadline" = some (.str s) → s ≠ "" →
      fromiso (if strEndsWith s "Z" then strDropRight s 1 ++ "+00:00" else s) = none →
      (buildFromObj raw kvs fromiso).deadline = none) := by
  refine ⟨fun _ _ _ _ => rfl, fun _ _ _ => rfl, fun _ _ _ _ => rfl, ?_, ?_, ?_, ?_⟩
  · intro raw loads fromiso t ts rest hcond
    rcases hcond with hc | hc
    · simp [process_raw_task_input, hc]
    · by_cases he : stripJsonFence (strTrim t) = ""
      · simp [process_raw_task_input, he]
      · simp [process_raw_task_input, he, hc]
  · intro raw loads fromiso t ts rest msg hl
    by_cases he : stripJsonFence (strTrim t) = ""
    · simp [process_raw_task_input, he]
    · by_cases hsw : strStartsWith (stripJsonFence (strTrim t)) "\x7b" = true
      · simp [process_raw_task_input, he, hsw, hl]
      · simp [process_raw_task_input, he, hsw]
  · intro raw loads fromiso t ts rest kvs hl he hsw
    simp [process_raw_task_input, he, hsw, hl]
  · intro raw fromiso kvs s hdl hs hiso
    have hnone : parseDeadlineField ((jsonLookup kvs "deadline").getD Json.null) fromiso
        = none := by
      rw [hdl]
      simp [parseDeadlineField, jsonTruthy, hs, hiso]
    unfold buildFromObj
    split <;> simp [hnone, fallbackData]

/-- Witness for C8: the concrete unparsable-deadline object yields an absent
deadline. -/
theorem c8_witness :
    (buildFromObj "buy milk"
      [("processed_description", Json.str "Edited"), ("deadline", Json.str "not-a-date")]
      c8_fromiso).deadline = none :=
  c8_extraction_degrades.2.2.2.2.2.2 "buy milk" c8_fromiso
    [("processed_description", Json.str "Edited"), ("deadline", Json.str "not-a-date")]
    "not-a-date" rfl (by decide) rfl
